import Mathlib

/-!
Verification development for the LINE message forwarder (app.py).

The program is a webhook-triggered relay: a Flask endpoint verifies the
platform signature and dispatches text-message events to a handler that
filters messages by keywords, fetches group and sender metadata from the
messaging API, composes two templated texts, pushes one to a target group
and replies with the other in the source group.

The embedding below mirrors the source file definition by definition:
pure helpers become Lean functions, the messaging API becomes a record of
result-returning functions (Except models a raised exception), and the
handler becomes a function that returns the list of API calls it performed
together with the exception, if any, escaping its try block.
-/

/-- Python str.lower applied characterwise. Char.toLower lowercases the
ASCII range, which agrees with Python on every character appearing in the
configured keywords and templates of this program. -/
def pyLower (s : String) : String := String.mk (s.data.map Char.toLower)

/-- Python str.startswith on the underlying character lists. -/
def charListBeginsWith : List Char → List Char → Bool
  | _, [] => true
  | [], _ :: _ => false
  | c :: cs, p :: ps => c == p && charListBeginsWith cs ps

/-- Python substring membership (the in operator): pat occurs contiguously
in s; the empty pattern is always contained. -/
def charListContains : List Char → List Char → Bool
  | [], pat => pat.isEmpty
  | c :: cs, pat => charListBeginsWith (c :: cs) pat || charListContains cs pat

/-- s.startswith p on Lean strings. -/
def strBeginsWith (s p : String) : Bool := charListBeginsWith s.data p.data

/-- p in s on Lean strings. -/
def strContains (s p : String) : Bool := charListContains s.data p.data

/-- The four values read from the process environment at startup
(ACCESS_TOKEN, CHANNEL_SECRET, SOURCE_GROUP_ID, TARGET_GROUP_ID). -/
structure Env where
  ACCESS_TOKEN : String
  CHANNEL_SECRET : String
  SOURCE_GROUP_ID : String
  TARGET_GROUP_ID : String
deriving DecidableEq

/-- The BotConfig dataclass: four environment-derived fields, the start
keyword with its literal default, and OTHER_KEYWORDS whose declared default
is None (hence an Option). -/
structure BotConfig where
  ACCESS_TOKEN : String
  CHANNEL_SECRET : String
  SOURCE_GROUP_ID : String
  TARGET_GROUP_ID : String
  START_KEYWORD : String
  OTHER_KEYWORDS : Option (List String)
deriving DecidableEq

/-- The generated dataclass init before post-processing: every field takes
the supplied argument when present, otherwise its declared default (the
environment value for the first four fields, the literal for START_KEYWORD,
None for OTHER_KEYWORDS). -/
def BotConfig.dataclass_init (env : Env)
    (accessTokenArg channelSecretArg sourceGidArg targetGidArg startKeywordArg : Option String)
    (otherKeywordsArg : Option (List String)) : BotConfig :=
  { ACCESS_TOKEN := accessTokenArg.getD env.ACCESS_TOKEN
    CHANNEL_SECRET := channelSecretArg.getD env.CHANNEL_SECRET
    SOURCE_GROUP_ID := sourceGidArg.getD env.SOURCE_GROUP_ID
    TARGET_GROUP_ID := targetGidArg.getD env.TARGET_GROUP_ID
    START_KEYWORD := startKeywordArg.getD "【Cashier Notifier】"
    OTHER_KEYWORDS := otherKeywordsArg }

/-- BotConfig.__post_init__: unconditionally overwrite OTHER_KEYWORDS with
the literal keyword list. -/
def BotConfig.post_init (c : BotConfig) : BotConfig :=
  { c with OTHER_KEYWORDS := some ["錯誤碼：", "video:"] }

/-- Constructing a BotConfig always runs the dataclass init followed by
post_init. -/
def mkBotConfig (env : Env)
    (accessTokenArg channelSecretArg sourceGidArg targetGidArg startKeywordArg : Option String)
    (otherKeywordsArg : Option (List String)) : BotConfig :=
  (BotConfig.dataclass_init env accessTokenArg channelSecretArg sourceGidArg
    targetGidArg startKeywordArg otherKeywordsArg).post_init

/-- The construction the program performs at startup: BotConfig() with no
arguments, so every field takes its default. -/
def the_bot_config (env : Env) : BotConfig :=
  mkBotConfig env none none none none none none

/-- LineBot.should_forward_message: the text, lowercased, must start with
the lowercased start keyword, and must contain the lowercase of every
configured keyword. Iterating OTHER_KEYWORDS while it is still None would
raise in Python; that state is unreachable because post_init always sets
the list, and the embedding returns false there. -/
def should_forward_message (cfg : BotConfig) (message_text : String) : Bool :=
  if !(strBeginsWith (pyLower message_text) (pyLower cfg.START_KEYWORD)) then
    false
  else
    match cfg.OTHER_KEYWORDS with
    | some ks => ks.all (fun keyword => strContains (pyLower message_text) (pyLower keyword))
    | none => false

/-- A fixed example environment used for concrete evaluations. -/
def exEnv : Env :=
  { ACCESS_TOKEN := "token"
    CHANNEL_SECRET := "secret"
    SOURCE_GROUP_ID := "SRC"
    TARGET_GROUP_ID := "TGT" }

/-- The configuration the program builds from the example environment. -/
def exCfg : BotConfig := the_bot_config exEnv

/-- C1: for every environment and message text, should_forward_message on
the constructed configuration is true exactly when the lowercased text
starts with the lowercased start keyword 【Cashier Notifier】 and contains
the lowercased forms of both 錯誤碼： and video:; the two concrete examples
from the specification evaluate as stated. -/
theorem should_forward_iff_keyword_filter :
    (∀ (env : Env) (t : String),
      should_forward_message (the_bot_config env) t = true ↔
        (strBeginsWith (pyLower t) (pyLower "【Cashier Notifier】") = true ∧
         strContains (pyLower t) (pyLower "錯誤碼：") = true ∧
         strContains (pyLower t) (pyLower "video:") = true)) ∧
    should_forward_message exCfg "【cashier notifier】XXX錯誤碼：500 video:abc" = true ∧
    should_forward_message exCfg "【Cashier Notifier】no error code" = false := by
  refine ⟨?_, by decide, by decide⟩
  intro env t
  simp only [should_forward_message, the_bot_config, mkBotConfig, BotConfig.post_init,
    BotConfig.dataclass_init, List.all_cons, List.all_nil, Option.getD_none]
  cases h : strBeginsWith (pyLower t) (pyLower "【Cashier Notifier】") <;>
    simp [h, and_assoc]

/-- The source object of an incoming event: kind (user or group), the group
identifier and the sender identifier. -/
structure EventSource where
  type : String
  group_id : String
  user_id : String
deriving DecidableEq

/-- The text message content of an incoming event. -/
structure EventMessage where
  text : String
deriving DecidableEq

/-- One incoming text-message webhook event. -/
structure Event where
  source : EventSource
  message : EventMessage
  reply_token : String
deriving DecidableEq

/-- get_group_summary response: the group display name. -/
structure GroupSummary where
  group_name : String
deriving DecidableEq

/-- get_group_member_profile response: the sender display name. -/
structure MemberProfile where
  display_name : String
deriving DecidableEq

/-- The dict returned by get_group_info. -/
structure GroupInfo where
  summary : GroupSummary
  members_count : Nat
deriving DecidableEq

/-- One outbound call to the messaging platform, with the arguments the
handler passes. -/
inductive ApiCall where
  | getGroupSummary (group_id : String)
  | getGroupMemberCount (group_id : String)
  | getGroupMemberProfile (group_id user_id : String)
  | push (target : String) (text : String)
  | reply (reply_token : String) (text : String)
deriving DecidableEq

/-- Is the call a push delivery. -/
def isPushCall : ApiCall → Bool
  | ApiCall.push _ _ => true
  | _ => false

/-- Is the call a reply delivery. -/
def isReplyCall : ApiCall → Bool
  | ApiCall.reply _ _ => true
  | _ => false

/-- The messaging platform as the handler sees it: each endpoint either
returns a value or raises (Except.error is a raised exception). -/
structure Api where
  getGroupSummary : String → Except String GroupSummary
  getGroupMemberCount : String → Except String Nat
  getGroupMemberProfile : String → String → Except String MemberProfile
  pushMessage : String → String → Except String Unit
  replyMessage : String → String → Except String Unit

/-- Did the call raise. -/
def isErr {ε α : Type} : Except ε α → Bool
  | Except.error _ => true
  | Except.ok _ => false

/-- LineBot.get_group_info: fetch the summary, then the member count; a
failure of either is logged and re-raised. Returns the calls attempted and
the result. -/
def get_group_info (api : Api) (group_id : String) :
    List ApiCall × Except String GroupInfo :=
  match api.getGroupSummary group_id with
  | Except.error e => ([ApiCall.getGroupSummary group_id], Except.error e)
  | Except.ok s =>
    match api.getGroupMemberCount group_id with
    | Except.error e =>
        ([ApiCall.getGroupSummary group_id, ApiCall.getGroupMemberCount group_id],
         Except.error e)
    | Except.ok n =>
        ([ApiCall.getGroupSummary group_id, ApiCall.getGroupMemberCount group_id],
         Except.ok { summary := s, members_count := n })

/-- The forward template instantiated. -/
def forwardText (sender group text : String) : String :=
  "[轉發訊息]\n發送者：" ++ sender ++ "\nFrom群組：" ++ group ++ "\n訊息內容：\n\n" ++ text

/-- The reply template instantiated. -/
def replyText (sender group text : String) : String :=
  "[訊息已轉發]\n發送者：" ++ sender ++ "\nTo群組：" ++ group ++ "\n訊息內容：\n\n" ++ text

/-- LineBot.create_message_text: look the message type up in the template
dict and format it; an unknown key raises KeyError, modelled as none. -/
def create_message_text (message_type sender_name group_name original_text : String) :
    Option String :=
  if message_type = "forward" then some (forwardText sender_name group_name original_text)
  else if message_type = "reply" then some (replyText sender_name group_name original_text)
  else none

/-- The body of the try block of LineBot.process_message: source guard,
filter guard, metadata retrieval for the source group, the sender and the
target group, then push to the target and reply to the source. Returns the
API calls performed, in order, and the exception escaping the try block if
one was raised. -/
def process_message_try (cfg : BotConfig) (api : Api) (event : Event) :
    List ApiCall × Except String Unit :=
  if event.source.type == "user" || event.source.group_id != cfg.SOURCE_GROUP_ID then
    ([], Except.ok ())
  else if !(should_forward_message cfg event.message.text) then
    ([], Except.ok ())
  else
    match get_group_info api event.source.group_id with
    | (t1, Except.error e) => (t1, Except.error e)
    | (t1, Except.ok source_group) =>
      let t2 := t1 ++ [ApiCall.getGroupMemberProfile event.source.group_id event.source.user_id]
      match api.getGroupMemberProfile event.source.group_id event.source.user_id with
      | Except.error e => (t2, Except.error e)
      | Except.ok sender_profile =>
        match get_group_info api cfg.TARGET_GROUP_ID with
        | (t3, Except.error e) => (t2 ++ t3, Except.error e)
        | (t3, Except.ok target_group) =>
          let t4 := t2 ++ t3
          match create_message_text "forward" sender_profile.display_name
              source_group.summary.group_name event.message.text with
          | none => (t4, Except.error "KeyError")
          | some forward_text =>
            let t5 := t4 ++ [ApiCall.push cfg.TARGET_GROUP_ID forward_text]
            match api.pushMessage cfg.TARGET_GROUP_ID forward_text with
            | Except.error e => (t5, Except.error e)
            | Except.ok _ =>
              match create_message_text "reply" sender_profile.display_name
                  target_group.summary.group_name event.message.text with
              | none => (t5, Except.error "KeyError")
              | some reply_text =>
                let t6 := t5 ++ [ApiCall.reply event.reply_token reply_text]
                match api.replyMessage event.reply_token reply_text with
                | Except.error e => (t6, Except.error e)
                | Except.ok _ => (t6, Except.ok ())

/-- LineBot.process_message: run the try body; the except clause catches
every exception, logs it and returns normally, so the handler itself never
raises. -/
def process_message_caught (cfg : BotConfig) (api : Api) (event : Event) :
    List ApiCall × Except String Unit :=
  match process_message_try cfg api event with
  | (trace, Except.error _) => (trace, Except.ok ())
  | (trace, Except.ok _) => (trace, Except.ok ())

/-- The calls LineBot.process_message performs on one event. -/
def process_message (cfg : BotConfig) (api : Api) (event : Event) : List ApiCall :=
  (process_message_caught cfg api event).1

/-- A group-sourced event from the configured source group whose text
passes the filter. -/
def exEvent : Event :=
  { source := { type := "group", group_id := "SRC", user_id := "U1" }
    message := { text := "【cashier notifier】XXX錯誤碼：500 video:abc" }
    reply_token := "RT" }

/-- A platform on which every endpoint succeeds; each group is named after
its identifier. -/
def exApi : Api :=
  { getGroupSummary := fun gid => Except.ok { group_name := gid ++ "-name" }
    getGroupMemberCount := fun _ => Except.ok 5
    getGroupMemberProfile := fun _ _ => Except.ok { display_name := "Alice" }
    pushMessage := fun _ _ => Except.ok ()
    replyMessage := fun _ _ => Except.ok () }

/-- C4: an event from an individual chat, or from a group other than the
configured source group, produces no API call and the handler returns
without raising. -/
theorem source_guard_no_action (cfg : BotConfig) (api : Api) (e : Event)
    (h : e.source.type = "user" ∨ e.source.group_id ≠ cfg.SOURCE_GROUP_ID) :
    process_message cfg api e = [] ∧
    (process_message_try cfg api e).2 = Except.ok () := by
  have hb : (e.source.type == "user" || e.source.group_id != cfg.SOURCE_GROUP_ID) = true := by
    rcases h with h | h <;> simp [h]
  constructor <;>
    simp [process_message, process_message_caught, process_message_try, hb]

/-- Witness for C4 at a concrete user-sourced event. -/
def exUserEvent : Event :=
  { source := { type := "user", group_id := "SRC", user_id := "U1" }
    message := { text := "【cashier notifier】XXX錯誤碼：500 video:abc" }
    reply_token := "RT" }

/-- C4 witness: the guard hypothesis holds for the concrete user event and
the handler performs no call. -/
theorem source_guard_no_action_witness :
    (exUserEvent.source.type = "user" ∨ exUserEvent.source.group_id ≠ exCfg.SOURCE_GROUP_ID) ∧
    (process_message exCfg exApi exUserEvent = [] ∧
     (process_message_try exCfg exApi exUserEvent).2 = Except.ok ()) :=
  ⟨Or.inl rfl, source_guard_no_action exCfg exApi exUserEvent (Or.inl rfl)⟩

/-- When both guards pass, every metadata retrieval succeeds and the push
succeeds, the handler performs exactly the five metadata calls followed by
the push and the reply, with the composed texts. -/
theorem process_message_success_trace (cfg : BotConfig) (api : Api) (e : Event)
    (ss ts : GroupSummary) (prof : MemberProfile) (n1 n2 : Nat)
    (hguard : (e.source.type == "user" || e.source.group_id != cfg.SOURCE_GROUP_ID) = false)
    (hfwd : should_forward_message cfg e.message.text = true)
    (hgs : api.getGroupSummary e.source.group_id = Except.ok ss)
    (hmc : api.getGroupMemberCount e.source.group_id = Except.ok n1)
    (hpr : api.getGroupMemberProfile e.source.group_id e.source.user_id = Except.ok prof)
    (hgs2 : api.getGroupSummary cfg.TARGET_GROUP_ID = Except.ok ts)
    (hmc2 : api.getGroupMemberCount cfg.TARGET_GROUP_ID = Except.ok n2)
    (hpush : api.pushMessage cfg.TARGET_GROUP_ID
        (forwardText prof.display_name ss.group_name e.message.text) = Except.ok ()) :
    process_message cfg api e =
      [ApiCall.getGroupSummary e.source.group_id,
       ApiCall.getGroupMemberCount e.source.group_id,
       ApiCall.getGroupMemberProfile e.source.group_id e.source.user_id,
       ApiCall.getGroupSummary cfg.TARGET_GROUP_ID,
       ApiCall.getGroupMemberCount cfg.TARGET_GROUP_ID,
       ApiCall.push cfg.TARGET_GROUP_ID
         (forwardText prof.display_name ss.group_name e.message.text),
       ApiCall.reply e.reply_token
         (replyText prof.display_name ts.group_name e.message.text)] := by
  unfold process_message process_message_caught process_message_try get_group_info
  rw [hguard, hfwd]
  simp only [Bool.false_eq_true, if_false, Bool.not_true, hgs, hmc, hpr, hgs2, hmc2]
  simp only [create_message_text, if_pos rfl, if_neg, reduceIte]
  rw [hpush]
  cases hr : api.replyMessage e.reply_token
      (replyText prof.display_name ts.group_name e.message.text) <;>
    simp [hr]

/-- C3: if any of the five metadata retrievals (source summary, source
member count, sender profile, target summary, target member count) raises,
the handler performs no push and no reply call. -/
theorem no_delivery_on_metadata_failure (cfg : BotConfig) (api : Api) (e : Event)
    (hfail : isErr (api.getGroupSummary e.source.group_id) = true ∨
             isErr (api.getGroupMemberCount e.source.group_id) = true ∨
             isErr (api.getGroupMemberProfile e.source.group_id e.source.user_id) = true ∨
             isErr (api.getGroupSummary cfg.TARGET_GROUP_ID) = true ∨
             isErr (api.getGroupMemberCount cfg.TARGET_GROUP_ID) = true) :
    (process_message cfg api e).countP isPushCall = 0 ∧
    (process_message cfg api e).countP isReplyCall = 0 := by
  unfold process_message process_message_caught process_message_try get_group_info
  cases hg : (e.source.type == "user" || e.source.group_id != cfg.SOURCE_GROUP_ID)
  case true => simp [hg]
  cases hf : should_forward_message cfg e.message.text
  case false => simp [hg, hf]
  rcases hgs : api.getGroupSummary e.source.group_id with err1 | ss <;>
  rcases hmc : api.getGroupMemberCount e.source.group_id with err2 | n1 <;>
  rcases hpr : api.getGroupMemberProfile e.source.group_id e.source.user_id with err3 | prof <;>
  rcases hgs2 : api.getGroupSummary cfg.TARGET_GROUP_ID with err4 | ts <;>
  rcases hmc2 : api.getGroupMemberCount cfg.TARGET_GROUP_ID with err5 | n2 <;>
  simp_all [isErr, isPushCall, isReplyCall, List.countP_cons, List.countP_nil]

/-- A platform identical to exApi except that fetching the sender profile
raises. -/
def exApiProfileFail : Api :=
  { exApi with getGroupMemberProfile := fun _ _ => Except.error "profile failed" }

/-- C3 witness: with the profile retrieval failing on the concrete event,
no delivery call happens. -/
theorem no_delivery_on_metadata_failure_witness :
    isErr (exApiProfileFail.getGroupMemberProfile exEvent.source.group_id
      exEvent.source.user_id) = true ∧
    ((process_message exCfg exApiProfileFail exEvent).countP isPushCall = 0 ∧
     (process_message exCfg exApiProfileFail exEvent).countP isReplyCall = 0) :=
  ⟨rfl, no_delivery_on_metadata_failure exCfg exApiProfileFail exEvent
    (Or.inr (Or.inr (Or.inl rfl)))⟩

/-- A platform identical to exApi except that the push delivery raises. -/
def exApiPushFail : Api :=
  { exApi with pushMessage := fun _ _ => Except.error "push failed" }

/-- C2 counterexample: on a concrete event that passes both guards and
whose five metadata retrievals all succeed, a failing push call leaves the
handler with one push call and zero reply calls, so the claimed single
reply does not occur. -/
theorem push_failure_leaves_no_reply_call :
    (exEvent.source.type == "user" || exEvent.source.group_id != exCfg.SOURCE_GROUP_ID) = false ∧
    should_forward_message exCfg exEvent.message.text = true ∧
    isErr (exApiPushFail.getGroupSummary exEvent.source.group_id) = false ∧
    isErr (exApiPushFail.getGroupMemberCount exEvent.source.group_id) = false ∧
    isErr (exApiPushFail.getGroupMemberProfile exEvent.source.group_id
      exEvent.source.user_id) = false ∧
    isErr (exApiPushFail.getGroupSummary exCfg.TARGET_GROUP_ID) = false ∧
    isErr (exApiPushFail.getGroupMemberCount exCfg.TARGET_GROUP_ID) = false ∧
    (process_message exCfg exApiPushFail exEvent).countP isPushCall = 1 ∧
    (process_message exCfg exApiPushFail exEvent).countP isReplyCall = 0 := by
  decide

/-- C2 amended: for every event that passes both guards, whose metadata
retrievals all succeed and whose push delivery succeeds, the handler
performs exactly one push call (to TARGET_GROUP_ID) and exactly one reply
call (with the event reply token), and the trace ends with the push
immediately followed by the reply, after the five metadata calls. -/
theorem fwd_exactly_one_push_then_reply (cfg : BotConfig) (api : Api) (e : Event)
    (ss ts : GroupSummary) (prof : MemberProfile) (n1 n2 : Nat)
    (hguard : (e.source.type == "user" || e.source.group_id != cfg.SOURCE_GROUP_ID) = false)
    (hfwd : should_forward_message cfg e.message.text = true)
    (hgs : api.getGroupSummary e.source.group_id = Except.ok ss)
    (hmc : api.getGroupMemberCount e.source.group_id = Except.ok n1)
    (hpr : api.getGroupMemberProfile e.source.group_id e.source.user_id = Except.ok prof)
    (hgs2 : api.getGroupSummary cfg.TARGET_GROUP_ID = Except.ok ts)
    (hmc2 : api.getGroupMemberCount cfg.TARGET_GROUP_ID = Except.ok n2)
    (hpush : api.pushMessage cfg.TARGET_GROUP_ID
        (forwardText prof.display_name ss.group_name e.message.text) = Except.ok ()) :
    (process_message cfg api e).countP isPushCall = 1 ∧
    (process_message cfg api e).countP isReplyCall = 1 ∧
    process_message cfg api e =
      [ApiCall.getGroupSummary e.source.group_id,
       ApiCall.getGroupMemberCount e.source.group_id,
       ApiCall.getGroupMemberProfile e.source.group_id e.source.user_id,
       ApiCall.getGroupSummary cfg.TARGET_GROUP_ID,
       ApiCall.getGroupMemberCount cfg.TARGET_GROUP_ID,
       ApiCall.push cfg.TARGET_GROUP_ID
         (forwardText prof.display_name ss.group_name e.message.text),
       ApiCall.reply e.reply_token
         (replyText prof.display_name ts.group_name e.message.text)] := by
  have h := process_message_success_trace cfg api e ss ts prof n1 n2
    hguard hfwd hgs hmc hpr hgs2 hmc2 hpush
  refine ⟨?_, ?_, h⟩ <;> rw [h] <;>
    simp [isPushCall, isReplyCall, List.countP_cons, List.countP_nil]

/-- C2 witness: the amended statement instantiated on the all-success
platform and the concrete forwarding event. -/
theorem fwd_exactly_one_push_then_reply_witness :
    (exEvent.source.type == "user" || exEvent.source.group_id != exCfg.SOURCE_GROUP_ID) = false ∧
    should_forward_message exCfg exEvent.message.text = true ∧
    exApi.getGroupSummary exEvent.source.group_id = Except.ok { group_name := "SRC-name" } ∧
    exApi.getGroupMemberCount exEvent.source.group_id = Except.ok 5 ∧
    exApi.getGroupMemberProfile exEvent.source.group_id exEvent.source.user_id =
      Except.ok { display_name := "Alice" } ∧
    exApi.getGroupSummary exCfg.TARGET_GROUP_ID = Except.ok { group_name := "TGT-name" } ∧
    exApi.getGroupMemberCount exCfg.TARGET_GROUP_ID = Except.ok 5 ∧
    exApi.pushMessage exCfg.TARGET_GROUP_ID
      (forwardText "Alice" "SRC-name" exEvent.message.text) = Except.ok () ∧
    ((process_message exCfg exApi exEvent).countP isPushCall = 1 ∧
     (process_message exCfg exApi exEvent).countP isReplyCall = 1 ∧
     process_message exCfg exApi exEvent =
       [ApiCall.getGroupSummary exEvent.source.group_id,
        ApiCall.getGroupMemberCount exEvent.source.group_id,
        ApiCall.getGroupMemberProfile exEvent.source.group_id exEvent.source.user_id,
        ApiCall.getGroupSummary exCfg.TARGET_GROUP_ID,
        ApiCall.getGroupMemberCount exCfg.TARGET_GROUP_ID,
        ApiCall.push exCfg.TARGET_GROUP_ID
          (forwardText "Alice" "SRC-name" exEvent.message.text),
        ApiCall.reply exEvent.reply_token
          (replyText "Alice" "TGT-name" exEvent.message.text)]) :=
  ⟨by decide, by decide, rfl, rfl, rfl, rfl, rfl, rfl,
   fwd_exactly_one_push_then_reply exCfg exApi exEvent
     { group_name := "SRC-name" } { group_name := "TGT-name" } { display_name := "Alice" } 5 5
     (by decide) (by decide) rfl rfl rfl rfl rfl rfl⟩

/-- C5: for every event forwarded under the success hypotheses, the single
pushed message is the forward template instantiated with the sender name,
the SOURCE group name and the original text, and the single reply is the
reply template instantiated with the same sender name, the TARGET group
name and the same text. -/
theorem forward_and_reply_texts (cfg : BotConfig) (api : Api) (e : Event)
    (ss ts : GroupSummary) (prof : MemberProfile) (n1 n2 : Nat)
    (hguard : (e.source.type == "user" || e.source.group_id != cfg.SOURCE_GROUP_ID) = false)
    (hfwd : should_forward_message cfg e.message.text = true)
    (hgs : api.getGroupSummary e.source.group_id = Except.ok ss)
    (hmc : api.getGroupMemberCount e.source.group_id = Except.ok n1)
    (hpr : api.getGroupMemberProfile e.source.group_id e.source.user_id = Except.ok prof)
    (hgs2 : api.getGroupSummary cfg.TARGET_GROUP_ID = Except.ok ts)
    (hmc2 : api.getGroupMemberCount cfg.TARGET_GROUP_ID = Except.ok n2)
    (hpush : api.pushMessage cfg.TARGET_GROUP_ID
        (forwardText prof.display_name ss.group_name e.message.text) = Except.ok ()) :
    (process_message cfg api e).filter isPushCall =
      [ApiCall.push cfg.TARGET_GROUP_ID
        (forwardText prof.display_name ss.group_name e.message.text)] ∧
    (process_message cfg api e).filter isReplyCall =
      [ApiCall.reply e.reply_token
        (replyText prof.display_name ts.group_name e.message.text)] ∧
    forwardText prof.display_name ss.group_name e.message.text =
      "[轉發訊息]\n發送者：" ++ prof.display_name ++ "\nFrom群組：" ++ ss.group_name ++
        "\n訊息內容：\n\n" ++ e.message.text ∧
    replyText prof.display_name ts.group_name e.message.text =
      "[訊息已轉發]\n發送者：" ++ prof.display_name ++ "\nTo群組：" ++ ts.group_name ++
        "\n訊息內容：\n\n" ++ e.message.text := by
  have h := process_message_success_trace cfg api e ss ts prof n1 n2
    hguard hfwd hgs hmc hpr hgs2 hmc2 hpush
  refine ⟨?_, ?_, rfl, rfl⟩ <;> rw [h] <;>
    simp [isPushCall, isReplyCall, List.filter]

/-- C5 witness: the template instantiation on the concrete event; pushed
text names the source group, reply text names the target group. -/
theorem forward_and_reply_texts_witness :
    (exEvent.source.type == "user" || exEvent.source.group_id != exCfg.SOURCE_GROUP_ID) = false ∧
    should_forward_message exCfg exEvent.message.text = true ∧
    exApi.getGroupSummary exEvent.source.group_id = Except.ok { group_name := "SRC-name" } ∧
    exApi.getGroupMemberCount exEvent.source.group_id = Except.ok 5 ∧
    exApi.getGroupMemberProfile exEvent.source.group_id exEvent.source.user_id =
      Except.ok { display_name := "Alice" } ∧
    exApi.getGroupSummary exCfg.TARGET_GROUP_ID = Except.ok { group_name := "TGT-name" } ∧
    exApi.getGroupMemberCount exCfg.TARGET_GROUP_ID = Except.ok 5 ∧
    exApi.pushMessage exCfg.TARGET_GROUP_ID
      (forwardText "Alice" "SRC-name" exEvent.message.text) = Except.ok () ∧
    ((process_message exCfg exApi exEvent).filter isPushCall =
      [ApiCall.push exCfg.TARGET_GROUP_ID
        (forwardText "Alice" "SRC-name" exEvent.message.text)] ∧
     (process_message exCfg exApi exEvent).filter isReplyCall =
      [ApiCall.reply exEvent.reply_token
        (replyText "Alice" "TGT-name" exEvent.message.text)] ∧
     forwardText "Alice" "SRC-name" exEvent.message.text =
       "[轉發訊息]\n發送者：" ++ "Alice" ++ "\nFrom群組：" ++ "SRC-name" ++
         "\n訊息內容：\n\n" ++ exEvent.message.text ∧
     replyText "Alice" "TGT-name" exEvent.message.text =
       "[訊息已轉發]\n發送者：" ++ "Alice" ++ "\nTo群組：" ++ "TGT-name" ++
         "\n訊息內容：\n\n" ++ exEvent.message.text) :=
  ⟨by decide, by decide, rfl, rfl, rfl, rfl, rfl, rfl,
   forward_and_reply_texts exCfg exApi exEvent
     { group_name := "SRC-name" } { group_name := "TGT-name" } { display_name := "Alice" } 5 5
     (by decide) (by decide) rfl rfl rfl rfl rfl rfl⟩

/-- Outcome of handler.handle on the raw body and signature header:
either it dispatched successfully, or it raised InvalidSignatureError, or
some other exception escaped dispatch. -/
inductive HandlerOutcome where
  | success
  | invalidSignature
  | failure (msg : String)
deriving DecidableEq

/-- An HTTP response; abort produces a status with no fixed body. -/
structure HttpResponse where
  status : Nat
  body : Option String
deriving DecidableEq

/-- The callback route body: try handler.handle, abort 400 on
InvalidSignatureError, abort 500 on any other exception, else return OK. -/
def callback : HandlerOutcome → HttpResponse
  | HandlerOutcome.invalidSignature => { status := 400, body := none }
  | HandlerOutcome.failure _ => { status := 500, body := none }
  | HandlerOutcome.success => { status := 200, body := some "OK" }

/-- The calls performed when handler.handle dispatches each text-message
event of the parsed body to process_message, in order. -/
def dispatch_trace (cfg : BotConfig) (api : Api) : List Event → List ApiCall
  | [] => []
  | e :: rest => process_message cfg api e ++ dispatch_trace cfg api rest

/-- Whether any dispatched handler invocation raised out of
process_message (which would surface as a generic exception in the
callback). -/
def dispatch_raises (cfg : BotConfig) (api : Api) : List Event → Bool
  | [] => false
  | e :: rest =>
    match (process_message_caught cfg api e).2 with
    | Except.error _ => true
    | Except.ok _ => dispatch_raises cfg api rest

/-- One POST to /callback: signature verification decides between 400 and
dispatch; an exception escaping dispatch yields 500, otherwise 200 OK.
Returns the response and the API calls performed. -/
def callback_post (cfg : BotConfig) (api : Api) (sigValid : Bool) (events : List Event) :
    HttpResponse × List ApiCall :=
  if sigValid = false then (callback HandlerOutcome.invalidSignature, [])
  else if dispatch_raises cfg api events = true then
    (callback (HandlerOutcome.failure "dispatch failed"), dispatch_trace cfg api events)
  else (callback HandlerOutcome.success, dispatch_trace cfg api events)

/-- C6: a POST whose signature fails verification gets 400 and performs no
call at all; a dispatch that raises gets 500; a successful dispatch gets
200 with body OK. -/
theorem callback_status_mapping :
    (∀ (cfg : BotConfig) (api : Api) (events : List Event),
      callback_post cfg api false events = ({ status := 400, body := none }, [])) ∧
    (∀ msg, callback (HandlerOutcome.failure msg) = { status := 500, body := none }) ∧
    callback HandlerOutcome.success = { status := 200, body := some "OK" } :=
  ⟨fun _ _ _ => rfl, fun _ => rfl, rfl⟩

/-- The except clause of process_message returns normally whatever the try
block did, so a handler invocation never raises. -/
theorem process_message_never_raises (cfg : BotConfig) (api : Api) (e : Event) :
    (process_message_caught cfg api e).2 = Except.ok () := by
  unfold process_message_caught
  rcases h : process_message_try cfg api e with ⟨tr, r⟩
  cases r <;> simp

/-- No dispatched event ever lets an exception escape. -/
theorem dispatch_never_raises (cfg : BotConfig) (api : Api) (events : List Event) :
    dispatch_raises cfg api events = false := by
  induction events with
  | nil => rfl
  | cons e rest ih =>
      unfold dispatch_raises
      rw [process_message_never_raises cfg api e]
      exact ih

/-- C7: every exception raised inside process_message is caught there, so
for every platform behaviour and every event list, a POST whose signature
verifies is answered 200 OK. -/
theorem signature_ok_implies_http_ok :
    ∀ (cfg : BotConfig) (api : Api) (events : List Event),
      (∀ e, (process_message_caught cfg api e).2 = Except.ok ()) ∧
      (callback_post cfg api true events).1 = { status := 200, body := some "OK" } := by
  intro cfg api events
  refine ⟨fun e => process_message_never_raises cfg api e, ?_⟩
  unfold callback_post
  rw [dispatch_never_raises cfg api events]
  simp [callback]

/-- C8: the handler keeps no state across invocations; dispatching the
identical event twice performs the identical call sequence twice, so a
replayed webhook forwards again: twice the pushes and twice the replies of
a single run. -/
theorem replay_produces_two_forwards :
    ∀ (cfg : BotConfig) (api : Api) (e : Event),
      (callback_post cfg api true [e, e]).2 =
        process_message cfg api e ++ process_message cfg api e ∧
      ((callback_post cfg api true [e, e]).2).countP isPushCall =
        2 * (process_message cfg api e).countP isPushCall ∧
      ((callback_post cfg api true [e, e]).2).countP isReplyCall =
        2 * (process_message cfg api e).countP isReplyCall := by
  intro cfg api e
  have htr : (callback_post cfg api true [e, e]).2 =
      process_message cfg api e ++ process_message cfg api e := by
    unfold callback_post
    rw [dispatch_never_raises cfg api [e, e]]
    simp [dispatch_trace]
  refine ⟨htr, ?_, ?_⟩ <;> rw [htr, List.countP_append] <;> ring

/-- C10: for every environment and all constructor arguments, the
constructed configuration carries OTHER_KEYWORDS = [錯誤碼：, video:]
because post_init overwrites whatever was supplied; and every construction
that does not supply a start keyword, in particular the argumentless one
the program performs, carries START_KEYWORD = 【Cashier Notifier】. -/
theorem filter_keywords_constant :
    ∀ (env : Env) (a b c d skw : Option String) (okw : Option (List String)),
      (mkBotConfig env a b c d skw okw).OTHER_KEYWORDS = some ["錯誤碼：", "video:"] ∧
      (mkBotConfig env a b c d none okw).START_KEYWORD = "【Cashier Notifier】" ∧
      (the_bot_config env).START_KEYWORD = "【Cashier Notifier】" ∧
      (the_bot_config env).OTHER_KEYWORDS = some ["錯誤碼：", "video:"] :=
  fun _ _ _ _ _ _ _ => ⟨rfl, rfl, rfl, rfl⟩

/-- C9: the member counts never influence the outcome: two platforms that
agree on summaries, profiles, push and reply, and whose member-count
endpoint succeeds on both sides (with possibly different values), drive
the handler to the identical call sequence, hence identical outbound
texts and targets. -/
theorem member_counts_no_influence (cfg : BotConfig) (api1 api2 : Api) (e : Event)
    (hgs : api1.getGroupSummary = api2.getGroupSummary)
    (hpr : api1.getGroupMemberProfile = api2.getGroupMemberProfile)
    (hpush : api1.pushMessage = api2.pushMessage)
    (hreply : api1.replyMessage = api2.replyMessage)
    (hc1 : ∀ gid, ∃ n, api1.getGroupMemberCount gid = Except.ok n)
    (hc2 : ∀ gid, ∃ n, api2.getGroupMemberCount gid = Except.ok n) :
    process_message cfg api1 e = process_message cfg api2 e := by
  obtain ⟨a1, h1⟩ := hc1 e.source.group_id
  obtain ⟨a2, h2⟩ := hc2 e.source.group_id
  obtain ⟨b1, h3⟩ := hc1 cfg.TARGET_GROUP_ID
  obtain ⟨b2, h4⟩ := hc2 cfg.TARGET_GROUP_ID
  unfold process_message process_message_caught process_message_try get_group_info
  rw [hgs, hpr, hpush, hreply, h1, h2, h3, h4]
  rcases hs : api2.getGroupSummary e.source.group_id with err1 | ss <;>
  rcases hp : api2.getGroupMemberProfile e.source.group_id e.source.user_id with err2 | prof <;>
  rcases hs2 : api2.getGroupSummary cfg.TARGET_GROUP_ID with err3 | ts <;>
  simp_all [create_message_text]

/-- A platform identical to exApi except that every member count comes
back 99 instead of 5. -/
def exApiCount99 : Api :=
  { exApi with getGroupMemberCount := fun _ => Except.ok 99 }

/-- C9 witness: the two concrete platforms differ only in the member-count
values and produce the identical call sequence. -/
theorem member_counts_no_influence_witness :
    exApi.getGroupSummary = exApiCount99.getGroupSummary ∧
    exApi.getGroupMemberProfile = exApiCount99.getGroupMemberProfile ∧
    exApi.pushMessage = exApiCount99.pushMessage ∧
    exApi.replyMessage = exApiCount99.replyMessage ∧
    (∀ gid, ∃ n, exApi.getGroupMemberCount gid = Except.ok n) ∧
    (∀ gid, ∃ n, exApiCount99.getGroupMemberCount gid = Except.ok n) ∧
    process_message exCfg exApi exEvent = process_message exCfg exApiCount99 exEvent :=
  ⟨rfl, rfl, rfl, rfl, fun _ => ⟨5, rfl⟩, fun _ => ⟨99, rfl⟩,
   member_counts_no_influence exCfg exApi exApiCount99 exEvent rfl rfl rfl rfl
     (fun _ => ⟨5, rfl⟩) (fun _ => ⟨99, rfl⟩)⟩
